import Mathlib

/-!
# Verification of the go-gtp GTPv0 IE codec and the S-GW control-plane handlers

This file gives a shallow embedding of two parts of the repository:

* `V0`: the GTPv0 Information Element codec (`v0/ies/ie.go`): the `IE`
  structure, the static TV length table, `Serialize`/`SerializeTo`,
  `Decode`/`DecodeFromBytes` (with the `decodeTVFromBytes` and
  `decodeTLVFromBytes` branches), `Len`, `SetLength`, `IsTV` and
  `DecodeMultiIEs`.  Bytes are modelled as `Nat` (values kept below 256 by
  the Go types; theorems carry explicit bounds where that matters), byte
  buffers as `List Nat`, and fallible operations return `Except`.

* `V2`: the S-GW example handlers (`handleCreateSessionRequest`,
  `handleModifyBearerRequest`, `handleFTEIDU`).  The handler bodies are
  translated from the source; the go-gtp v2 library they call (sessions,
  connections, stores, FTEID allocation, the bounded wait) is not among the
  source files, so those operations are modelled from the specification, as
  marked in their doc comments.  Concurrency is sequentialized: the outcome
  of the bounded wait for the upstream response is an explicit input of the
  handler.
-/

namespace GoGTP

namespace V0

/-- Serialization error of the v0 codec (`ErrTooShortToSerialize`). -/
inductive SerializeErr
  | tooShortToSerialize
deriving DecidableEq

/-- Decoding errors of the v0 codec (`ErrTooShortToDecode`, `ErrInvalidLength`). -/
inductive DecodeErr
  | tooShortToDecode
  | invalidLength
deriving DecidableEq

/-- A GTPv0 Information Element: `IE{Type uint8, Length uint16, Payload []byte}`.
Field names: `typ` for the Go field `Type` (a Lean keyword), `length` for
`Length`, `payload` for `Payload`. -/
structure IE where
  typ : Nat
  length : Nat
  payload : List Nat
deriving DecidableEq

/-- The static per-type length table `tvLengthMap` of the v0 codec, keyed by
IE type, written as a decision chain over the same key/value pairs. -/
def tvLengthMap (t : Nat) : Option Nat :=
  if t = 0 then some 0
  else if t = 1 then some 1
  else if t = 2 then some 8
  else if t = 3 then some 6
  else if t = 4 then some 4
  else if t = 5 then some 4
  else if t = 6 then some 3
  else if t = 8 then some 1
  else if t = 9 then some 28
  else if t = 11 then some 1
  else if t = 12 then some 3
  else if t = 13 then some 1
  else if t = 14 then some 1
  else if t = 15 then some 1
  else if t = 16 then some 2
  else if t = 17 then some 2
  else if t = 18 then some 3
  else if t = 19 then some 1
  else if t = 127 then some 4
  else none

/-- `IsTV`: an IE is TV format exactly when its type is below `0x80`. -/
def IE.IsTV (i : IE) : Bool := i.typ < 128

/-- `Len`: the actual length of the IE.  Table types get the table length
plus one; other TV types `1 + len(Payload)`; TLV types `3 + len(Payload)`. -/
def IE.Len (i : IE) : Nat :=
  match tvLengthMap i.typ with
  | some l => l + 1
  | none => if i.typ < 128 then 1 + i.payload.length else 3 + i.payload.length

/-- `SetLength`: zero for table types, otherwise the payload length cast to
`uint16` (hence the `% 65536`). -/
def IE.SetLength (i : IE) : IE :=
  match tvLengthMap i.typ with
  | some _ => { i with length := 0 }
  | none => { i with length := i.payload.length % 65536 }

/-- `New`: build an IE from type and payload and apply `SetLength`. -/
def New (t : Nat) (p : List Nat) : IE :=
  IE.SetLength { typ := t, length := 0, payload := p }

/-- The effect of Go `copy(b[off : off+k], src)` on the buffer `b`:
`min k src.length` bytes of `src` overwrite `b` starting at `off`. -/
def copyInto (b : List Nat) (off k : Nat) (src : List Nat) : List Nat :=
  b.take off ++ src.take k ++ b.drop (off + min k src.length)

/-- `SerializeTo`: fails when the buffer is shorter than `Len`; writes the
type byte, for TLV the big-endian 2-byte length, then copies the payload
into `b[offset : Len]`. -/
def IE.SerializeTo (i : IE) (b : List Nat) : Except SerializeErr (List Nat) :=
  if b.length < i.Len then .error .tooShortToSerialize
  else
    let b1 := b.set 0 i.typ
    if i.IsTV then .ok (copyInto b1 1 (i.Len - 1) i.payload)
    else
      let b2 := (b1.set 1 (i.length / 256)).set 2 (i.length % 256)
      .ok (copyInto b2 3 (i.Len - 3) i.payload)

/-- `Serialize`: allocate a zeroed buffer of length `Len` and serialize into it. -/
def IE.Serialize (i : IE) : Except SerializeErr (List Nat) :=
  i.SerializeTo (List.replicate i.Len 0)

/-- `decodeTVFromBytes`: fixed-length decode.  The length check uses `Len`
of the partially-filled IE (whose payload is still empty). -/
def decodeTVFromBytes (i : IE) (b : List Nat) : Except DecodeErr IE :=
  if b.length < 2 then .error .tooShortToDecode
  else if b.length < i.Len then .error .invalidLength
  else .ok { i with length := 0, payload := (b.take i.Len).drop 1 }

/-- `decodeTLVFromBytes`: read the big-endian 2-byte length, check it
against the remaining buffer, take that many payload bytes. -/
def decodeTLVFromBytes (i : IE) (b : List Nat) : Except DecodeErr IE :=
  if b.length < 3 then .error .tooShortToDecode
  else
    let len := (b.getD 1 0) * 256 + b.getD 2 0
    if b.length < len + 3 then .error .invalidLength
    else .ok { i with length := len, payload := (b.drop 3).take len }

/-- `DecodeFromBytes`: reject buffers shorter than 2 bytes, read the type
byte, dispatch on the wire format. -/
def IE.DecodeFromBytes (i : IE) (b : List Nat) : Except DecodeErr IE :=
  if b.length < 2 then .error .tooShortToDecode
  else
    let i2 := { i with typ := b.getD 0 0 }
    if i2.IsTV then decodeTVFromBytes i2 b else decodeTLVFromBytes i2 b

/-- `Decode`: decode into a fresh IE. -/
def Decode (b : List Nat) : Except DecodeErr IE :=
  IE.DecodeFromBytes { typ := 0, length := 0, payload := [] } b

/-- Every IE has positive `Len` (used for termination of `DecodeMultiIEs`). -/
theorem IE.Len_pos (i : IE) : 0 < i.Len := by
  unfold IE.Len
  cases tvLengthMap i.typ <;> simp <;> split <;> omega

/-- `DecodeMultiIEs`: repeatedly decode and advance by `Len` bytes until the
buffer is empty; any single decode failure aborts the whole operation. -/
def DecodeMultiIEs (b : List Nat) : Except DecodeErr (List IE) :=
  if h : b.length = 0 then .ok []
  else
    match Decode b with
    | .error e => .error e
    | .ok i =>
      match DecodeMultiIEs (b.drop i.Len) with
      | .error e => .error e
      | .ok rest => .ok (i :: rest)
termination_by b.length
decreasing_by
  simp only [List.length_drop]
  have := IE.Len_pos i
  omega

/-- Bounds read off the static table: keys are below 128, values at most 28,
and every key other than the reserved type 0 has a value of at least 1. -/
theorem tvLengthMap_bounds (t l : Nat) (h : tvLengthMap t = some l) :
    t < 128 ∧ l ≤ 28 ∧ (t ≠ 0 → 1 ≤ l) := by
  unfold tvLengthMap at h
  by_cases h0 : t = 0
  · rw [if_pos h0] at h; rw [Option.some_inj] at h; omega
  rw [if_neg h0] at h
  by_cases h1 : t = 1
  · rw [if_pos h1] at h; rw [Option.some_inj] at h; omega
  rw [if_neg h1] at h
  by_cases h2 : t = 2
  · rw [if_pos h2] at h; rw [Option.some_inj] at h; omega
  rw [if_neg h2] at h
  by_cases h3 : t = 3
  · rw [if_pos h3] at h; rw [Option.some_inj] at h; omega
  rw [if_neg h3] at h
  by_cases h4 : t = 4
  · rw [if_pos h4] at h; rw [Option.some_inj] at h; omega
  rw [if_neg h4] at h
  by_cases h5 : t = 5
  · rw [if_pos h5] at h; rw [Option.some_inj] at h; omega
  rw [if_neg h5] at h
  by_cases h6 : t = 6
  · rw [if_pos h6] at h; rw [Option.some_inj] at h; omega
  rw [if_neg h6] at h
  by_cases h8 : t = 8
  · rw [if_pos h8] at h; rw [Option.some_inj] at h; omega
  rw [if_neg h8] at h
  by_cases h9 : t = 9
  · rw [if_pos h9] at h; rw [Option.some_inj] at h; omega
  rw [if_neg h9] at h
  by_cases h11 : t = 11
  · rw [if_pos h11] at h; rw [Option.some_inj] at h; omega
  rw [if_neg h11] at h
  by_cases h12 : t = 12
  · rw [if_pos h12] at h; rw [Option.some_inj] at h; omega
  rw [if_neg h12] at h
  by_cases h13 : t = 13
  · rw [if_pos h13] at h; rw [Option.some_inj] at h; omega
  rw [if_neg h13] at h
  by_cases h14 : t = 14
  · rw [if_pos h14] at h; rw [Option.some_inj] at h; omega
  rw [if_neg h14] at h
  by_cases h15 : t = 15
  · rw [if_pos h15] at h; rw [Option.some_inj] at h; omega
  rw [if_neg h15] at h
  by_cases h16 : t = 16
  · rw [if_pos h16] at h; rw [Option.some_inj] at h; omega
  rw [if_neg h16] at h
  by_cases h17 : t = 17
  · rw [if_pos h17] at h; rw [Option.some_inj] at h; omega
  rw [if_neg h17] at h
  by_cases h18 : t = 18
  · rw [if_pos h18] at h; rw [Option.some_inj] at h; omega
  rw [if_neg h18] at h
  by_cases h19 : t = 19
  · rw [if_pos h19] at h; rw [Option.some_inj] at h; omega
  rw [if_neg h19] at h
  by_cases h127 : t = 127
  · rw [if_pos h127] at h; rw [Option.some_inj] at h; omega
  rw [if_neg h127] at h
  exact Option.noConfusion h

/-- Validity of a type/payload pair, as the roundtrip claim quantifies it:
for a type of the static table the payload length equals the table length;
for TLV types (at or above 128) the payload fits the 2-byte length field. -/
def ValidTP (t : Nat) (p : List Nat) : Prop :=
  match tvLengthMap t with
  | some l => p.length = l
  | none => 128 ≤ t ∧ p.length ≤ 65535

/-- The wire bytes `Serialize` produces for a valid type/payload pair. -/
def encBytes (t : Nat) (p : List Nat) : List Nat :=
  match tvLengthMap t with
  | some _ => t :: p
  | none => t :: (p.length / 256) :: (p.length % 256) :: p

/-- Serializing a table-type IE of exactly the table length emits the type
byte followed by the payload. -/
theorem serialize_tv (t l : Nat) (p : List Nat) (hm : tvLengthMap t = some l)
    (hp : p.length = l) : (New t p).Serialize = .ok (t :: p) := by
  have ht : t < 128 := (tvLengthMap_bounds t l hm).1
  have hnew : New t p = { typ := t, length := 0, payload := p } := by
    simp [New, IE.SetLength, hm]
  have hlen : (New t p).Len = l + 1 := by simp [hnew, IE.Len, hm]
  rw [IE.Serialize, IE.SerializeTo, hlen]
  rw [if_neg (by simp)]
  simp only [hnew, IE.IsTV, decide_eq_true_eq]
  rw [if_pos (by exact ht)]
  have hset : (List.replicate (l + 1) 0).set 0 t = t :: List.replicate l 0 := by
    simp [List.replicate_succ]
  rw [hset]
  unfold copyInto
  have h1 : p.take l = p := by rw [← hp]; exact List.take_length p
  have h2 : (t :: List.replicate l 0).drop (1 + min l p.length) = [] := by
    apply List.drop_eq_nil_of_le
    simp
    omega
  simp [h1, h2, hp]
  omega

/-- Decoding a table-type encoding, with any suffix appended, recovers the
IE and reads exactly the table length. -/
theorem decode_tv (t l : Nat) (p s : List Nat) (hm : tvLengthMap t = some l)
    (hl : 1 ≤ l) (hp : p.length = l) : Decode (t :: (p ++ s)) = .ok (New t p) := by
  have ht : t < 128 := (tvLengthMap_bounds t l hm).1
  have hnew : New t p = { typ := t, length := 0, payload := p } := by
    simp [New, IE.SetLength, hm]
  have hblen : (t :: (p ++ s)).length = 1 + l + s.length := by simp [hp]; omega
  rw [Decode, IE.DecodeFromBytes]
  rw [if_neg (by omega)]
  simp only [List.getD_cons_zero, IE.IsTV, decide_eq_true_eq]
  rw [if_pos (by exact ht)]
  rw [decodeTVFromBytes]
  rw [if_neg (by omega)]
  have hlen2 : IE.Len { typ := t, length := 0, payload := ([] : List Nat) } = l + 1 := by
    simp [IE.Len, hm]
  simp only [hlen2]
  rw [if_neg (by omega)]
  have htake : (t :: (p ++ s)).take (l + 1) = t :: p := by
    rw [List.take_succ_cons, List.take_append_eq_append_take, hp]
    simp
    omega
  rw [htake, hnew]
  simp

/-- Serializing a TLV IE emits the type byte, the big-endian length, then
the payload. -/
theorem serialize_tlv (t : Nat) (p : List Nat) (hm : tvLengthMap t = none)
    (ht : 128 ≤ t) (hp : p.length ≤ 65535) :
    (New t p).Serialize = .ok (t :: (p.length / 256) :: (p.length % 256) :: p) := by
  have hmod : p.length % 65536 = p.length := Nat.mod_eq_of_lt (by omega)
  have hnew : New t p = { typ := t, length := p.length, payload := p } := by
    simp [New, IE.SetLength, hm, hmod]
  have hlen : (New t p).Len = 3 + p.length := by
    simp [hnew, IE.Len, hm]
    omega
  rw [IE.Serialize, IE.SerializeTo, hlen]
  rw [if_neg (by simp)]
  simp only [hnew, IE.IsTV, decide_eq_true_eq]
  rw [if_neg (by omega)]
  have hset : (((List.replicate (3 + p.length) 0).set 0 t).set 1 (p.length / 256)).set 2
      (p.length % 256) = t :: (p.length / 256) :: (p.length % 256) :: List.replicate p.length 0 := by
    have : 3 + p.length = (p.length + 1) + 1 + 1 := by omega
    rw [this]
    simp [List.replicate_succ]
  rw [hset]
  unfold copyInto
  have h2 : (t :: (p.length / 256) :: (p.length % 256) :: List.replicate p.length 0).drop
      (3 + min p.length p.length) = [] := by
    apply List.drop_eq_nil_of_le
    simp
    omega
  simp [List.take_length, h2]
  omega

/-- Decoding a TLV encoding, with any suffix appended, recovers the IE and
reads exactly the declared length (plus the 3-byte header). -/
theorem decode_tlv (t : Nat) (p s : List Nat) (hm : tvLengthMap t = none)
    (ht : 128 ≤ t) (hp : p.length ≤ 65535) :
    Decode (t :: (p.length / 256) :: (p.length % 256) :: (p ++ s)) = .ok (New t p) := by
  have hmod : p.length % 65536 = p.length := Nat.mod_eq_of_lt (by omega)
  have hnew : New t p = { typ := t, length := p.length, payload := p } := by
    simp [New, IE.SetLength, hm, hmod]
  have hbe : p.length / 256 * 256 + p.length % 256 = p.length := by
    have := Nat.div_add_mod p.length 256
    omega
  rw [Decode, IE.DecodeFromBytes]
  rw [if_neg (by simp)]
  simp only [List.getD_cons_zero, IE.IsTV, decide_eq_true_eq]
  rw [if_neg (by omega)]
  rw [decodeTLVFromBytes]
  rw [if_neg (by simp)]
  simp only [List.getD_cons_zero, List.getD_cons_succ, hbe]
  rw [if_neg (by simp)]
  rw [hnew]
  simp

/-- Under validity (type 0 aside), `Serialize` produces `encBytes`. -/
theorem serialize_encBytes (t : Nat) (p : List Nat) (hv : ValidTP t p) :
    (New t p).Serialize = .ok (encBytes t p) := by
  unfold ValidTP at hv
  unfold encBytes
  cases hm : tvLengthMap t with
  | some l => rw [hm] at hv; exact serialize_tv t l p hm hv
  | none => rw [hm] at hv; exact serialize_tlv t p hm hv.1 hv.2

/-- Under validity and excluding the reserved type 0, decoding `encBytes`
with any suffix appended recovers the original IE. -/
theorem decode_encBytes (t : Nat) (p s : List Nat) (hv : ValidTP t p)
    (h0 : t ≠ 0) : Decode (encBytes t p ++ s) = .ok (New t p) := by
  unfold ValidTP at hv
  unfold encBytes
  cases hm : tvLengthMap t with
  | some l =>
    rw [hm] at hv
    have hl : 1 ≤ l := (tvLengthMap_bounds t l hm).2.2 h0
    simpa using decode_tv t l p s hm hl hv
  | none =>
    rw [hm] at hv
    simpa using decode_tlv t p s hm hv.1 hv.2

/-- The `Len` of a freshly built valid IE equals the length of its encoding. -/
theorem len_encBytes (t : Nat) (p : List Nat) (hv : ValidTP t p) :
    (New t p).Len = (encBytes t p).length := by
  unfold ValidTP at hv
  unfold encBytes
  cases hm : tvLengthMap t with
  | some l =>
    rw [hm] at hv
    simp [New, IE.SetLength, IE.Len, hm, hv]
  | none =>
    rw [hm] at hv
    have ht2 : ¬ (t < 128) := by omega
    simp [New, IE.SetLength, IE.Len, hm, ht2]
    omega

/-- Every valid encoding has at least two bytes (type 0 aside). -/
theorem encBytes_len_ge (t : Nat) (p : List Nat) (hv : ValidTP t p)
    (h0 : t ≠ 0) : 2 ≤ (encBytes t p).length := by
  unfold ValidTP at hv
  unfold encBytes
  cases hm : tvLengthMap t with
  | some l =>
    rw [hm] at hv
    have hl : 1 ≤ l := (tvLengthMap_bounds t l hm).2.2 h0
    simp [hv]
    omega
  | none => simp

/-- Unfolding `DecodeMultiIEs` on the empty buffer. -/
theorem DecodeMultiIEs_nil : DecodeMultiIEs [] = .ok [] := by
  rw [DecodeMultiIEs.eq_def]
  simp

/-- Unfolding `DecodeMultiIEs` when the first decode fails. -/
theorem DecodeMultiIEs_error (b : List Nat) (hb : b.length ≠ 0) (e : DecodeErr)
    (hd : Decode b = .error e) : DecodeMultiIEs b = .error e := by
  rw [DecodeMultiIEs.eq_def]
  rw [dif_neg hb, hd]

/-- Unfolding `DecodeMultiIEs` when the first decode succeeds: the decoded IE
is prepended and the buffer advances by its `Len`. -/
theorem DecodeMultiIEs_cons (b : List Nat) (hb : b.length ≠ 0) (i : IE)
    (hd : Decode b = .ok i) :
    DecodeMultiIEs b = (DecodeMultiIEs (b.drop i.Len)).map (fun r => i :: r) := by
  conv_lhs => rw [DecodeMultiIEs.eq_def]
  rw [dif_neg hb, hd]
  cases h : DecodeMultiIEs (b.drop i.Len) <;> simp [h, Except.map]

/-- Decoding a concatenation of valid encodings followed by an arbitrary
tail: the valid encodings are consumed one by one, in order. -/
theorem multi_decode_append (L : List (Nat × List Nat))
    (hL : ∀ tp ∈ L, ValidTP tp.1 tp.2 ∧ tp.1 ≠ 0) (tail : List Nat) :
    DecodeMultiIEs ((L.map (fun tp => encBytes tp.1 tp.2)).flatten ++ tail)
      = (DecodeMultiIEs tail).map
          (fun r => (L.map (fun tp => New tp.1 tp.2)) ++ r) := by
  induction L with
  | nil =>
    simp only [List.map_nil, List.flatten_nil, List.nil_append]
    cases DecodeMultiIEs tail <;> simp [Except.map]
  | cons x L ih =>
    obtain ⟨hv, h0⟩ := hL x (by simp)
    have hge := encBytes_len_ge x.1 x.2 hv h0
    have hd : Decode (encBytes x.1 x.2 ++ ((L.map (fun tp => encBytes tp.1 tp.2)).flatten ++ tail))
        = .ok (New x.1 x.2) := decode_encBytes x.1 x.2 _ hv h0
    have hlen := len_encBytes x.1 x.2 hv
    rw [List.map_cons, List.flatten_cons, List.append_assoc]
    rw [DecodeMultiIEs_cons
      (encBytes x.1 x.2 ++ ((L.map (fun tp => encBytes tp.1 tp.2)).flatten ++ tail))
      (by simp only [List.length_append]; omega) _ hd]
    rw [hlen, List.drop_left]
    rw [ih (fun tp htp => hL tp (by simp [htp]))]
    cases DecodeMultiIEs tail <;> simp [Except.map]

/-- Decoding a valid encoding truncated by its final byte fails. -/
theorem decode_truncated_fails (t : Nat) (p : List Nat) (hv : ValidTP t p)
    (h0 : t ≠ 0) :
    (encBytes t p).dropLast ≠ [] ∧ ∃ e, Decode ((encBytes t p).dropLast) = .error e := by
  unfold ValidTP at hv
  unfold encBytes
  cases hm : tvLengthMap t with
  | some l =>
    rw [hm] at hv
    obtain ⟨ht, hl28, hl1⟩ := tvLengthMap_bounds t l hm
    have hl : 1 ≤ l := hl1 h0
    have hp : p ≠ [] := by
      intro hnil
      rw [hnil] at hv
      simp at hv
      omega
    have hdl : (t :: p).dropLast = t :: p.dropLast := by
      cases p with
      | nil => exact absurd rfl hp
      | cons a as => rfl
    have hdlen : (t :: p.dropLast).length = l := by
      simp [List.length_dropLast, hv]
      omega
    rw [hdl]
    refine ⟨by simp, ?_⟩
    by_cases h1 : l = 1
    · refine ⟨.tooShortToDecode, ?_⟩
      rw [Decode, IE.DecodeFromBytes, if_pos (by omega)]
    · refine ⟨.invalidLength, ?_⟩
      rw [Decode, IE.DecodeFromBytes, if_neg (by omega)]
      simp only [List.getD_cons_zero, IE.IsTV, decide_eq_true_eq]
      rw [if_pos (by exact ht)]
      rw [decodeTVFromBytes, if_neg (by omega)]
      have hlen2 : IE.Len { typ := t, length := 0, payload := ([] : List Nat) } = l + 1 := by
        simp [IE.Len, hm]
      rw [hlen2, if_pos (by omega)]
  | none =>
    rw [hm] at hv
    obtain ⟨ht, hp⟩ := hv
    cases hq : p with
    | nil =>
      subst hq
      refine ⟨by simp, .tooShortToDecode, ?_⟩
      show Decode [t, 0] = .error DecodeErr.tooShortToDecode
      rw [Decode, IE.DecodeFromBytes]
      rw [if_neg (by simp)]
      simp only [List.getD_cons_zero, IE.IsTV, decide_eq_true_eq]
      rw [if_neg (by omega)]
      rw [decodeTLVFromBytes, if_pos (by simp)]
    | cons a as =>
      have hpn : p ≠ [] := by simp [hq]
      have hdl : (t :: (p.length / 256) :: (p.length % 256) :: p).dropLast
          = t :: (p.length / 256) :: (p.length % 256) :: p.dropLast := by
        cases p with
        | nil => exact absurd rfl hpn
        | cons b bs => rfl
      have hplen : 1 ≤ p.length := by simp [hq]
      rw [← hq] at *
      rw [hdl]
      have hbe : p.length / 256 * 256 + p.length % 256 = p.length := by
        have := Nat.div_add_mod p.length 256
        omega
      refine ⟨by simp, .invalidLength, ?_⟩
      rw [Decode, IE.DecodeFromBytes, if_neg (by simp)]
      simp only [List.getD_cons_zero, IE.IsTV, decide_eq_true_eq]
      rw [if_neg (by omega)]
      rw [decodeTLVFromBytes,
        if_neg (by simp only [List.length_cons, List.length_dropLast]; omega)]
      simp only [List.getD_cons_zero, List.getD_cons_succ, hbe]
      rw [if_pos (by simp only [List.length_cons, List.length_dropLast]; omega)]

/-- The bytes `Serialize` produces for a type/payload pair (empty on the
error branch, which cannot occur since `Serialize` allocates a buffer of
exactly `Len` bytes). -/
def encOf (tp : Nat × List Nat) : List Nat :=
  match (New tp.1 tp.2).Serialize with
  | .ok bs => bs
  | .error _ => []

/-- For valid pairs, `encOf` equals the explicit encoding `encBytes`. -/
theorem encOf_eq (tp : Nat × List Nat) (hv : ValidTP tp.1 tp.2) :
    encOf tp = encBytes tp.1 tp.2 := by
  unfold encOf
  rw [serialize_encBytes tp.1 tp.2 hv]

/-- Claim C1, counterexample: the reserved type 0 is in the static table
with length 0, so its payload length 0 is valid for its type, yet its
1-byte serialization is rejected by `Decode` as too short, so
`decode(encode(ie)) == ie` fails for it. -/
theorem claim_C1_counterexample :
    ValidTP 0 [] ∧ (New 0 []).Serialize = .ok [0]
      ∧ Decode [0] = .error DecodeErr.tooShortToDecode :=
  ⟨rfl, rfl, rfl⟩

/-- Claim C1 (amended): for every IE type at most 255 other than the
reserved type 0, with payload length valid for its type (equal to the
static table length for TV-format table types, at most 65535 bytes for
TLV-format types), decoding the bytes produced by `Serialize` yields an IE
equal to the original (same type, length and payload). -/
theorem claim_C1_roundtrip (t : Nat) (p : List Nat) (hbyte : t ≤ 255)
    (h0 : t ≠ 0) (hv : ValidTP t p) :
    ∃ bs, (New t p).Serialize = .ok bs ∧ Decode bs = .ok (New t p) := by
  refine ⟨encBytes t p, serialize_encBytes t p hv, ?_⟩
  have h := decode_encBytes t p [] hv h0
  simpa using h

/-- Witness for C1: the roundtrip at a TV IE (Cause, type 1) and at a TLV
IE (type 130). -/
theorem claim_C1_roundtrip_witness :
    ((1 : Nat) ≤ 255 ∧ (1 : Nat) ≠ 0 ∧ ValidTP 1 [9] ∧ ValidTP 130 [7, 8])
      ∧ (∃ bs, (New 1 [9]).Serialize = .ok bs ∧ Decode bs = .ok (New 1 [9]))
      ∧ (∃ bs, (New 130 [7, 8]).Serialize = .ok bs ∧ Decode bs = .ok (New 130 [7, 8])) :=
  ⟨⟨by omega, by omega, rfl, ⟨by decide, by decide⟩⟩,
    claim_C1_roundtrip 1 [9] (by omega) (by omega) rfl,
    claim_C1_roundtrip 130 [7, 8] (by omega) (by omega) ⟨by decide, by decide⟩⟩

/-- Claim C2, counterexample: type 20 is treated as TV format (below 0x80)
but is absent from the static table; `New`/`SetLength` give it the payload
length (1, not 0) as its Length field, and its effective length depends on
the payload, not on the table. -/
theorem claim_C2_counterexample :
    (New 20 [5]).IsTV = true ∧ (New 20 [5]).length = 1 ∧ (New 20 [5]).Len = 2 :=
  ⟨rfl, rfl, rfl⟩

/-- Claim C2 (amended): for TV-format types present in the static table,
the Length field is zero after construction via `New`/`SetLength` and the
effective length is the table value plus one, independent of payload size;
after decoding, every TV-format IE has Length zero. -/
theorem claim_C2_tv_length :
    (∀ t l p, tvLengthMap t = some l →
        (New t p).length = 0 ∧ ((New t p).SetLength).length = 0 ∧ (New t p).Len = l + 1)
    ∧ (∀ b i, Decode b = .ok i → i.IsTV = true → i.length = 0) := by
  constructor
  · intro t l p hm
    refine ⟨?_, ?_, ?_⟩ <;> simp [New, IE.SetLength, IE.Len, hm]
  · intro b i hd hTV
    rw [Decode, IE.DecodeFromBytes] at hd
    by_cases hlen : b.length < 2
    · rw [if_pos hlen] at hd
      exact Except.noConfusion hd
    rw [if_neg hlen] at hd
    by_cases htv : ({ typ := b.getD 0 0, length := 0, payload := ([] : List Nat) } : IE).IsTV = true
    · rw [if_pos htv] at hd
      rw [decodeTVFromBytes, if_neg hlen] at hd
      by_cases hil : b.length < IE.Len { typ := b.getD 0 0, length := 0, payload := ([] : List Nat) }
      · rw [if_pos hil] at hd
        exact Except.noConfusion hd
      · rw [if_neg hil] at hd
        have heq := Except.ok.inj hd
        rw [← heq]
    · rw [if_neg htv] at hd
      rw [decodeTLVFromBytes] at hd
      by_cases h3 : b.length < 3
      · rw [if_pos h3] at hd
        exact Except.noConfusion hd
      · rw [if_neg h3] at hd
        simp only at hd
        by_cases h4 : b.length < (b.getD 1 0) * 256 + b.getD 2 0 + 3
        · rw [if_pos h4] at hd
          exact Except.noConfusion hd
        · rw [if_neg h4] at hd
          have heq := Except.ok.inj hd
          rw [← heq] at hTV
          simp [IE.IsTV] at hTV htv
          omega

/-- Witness for C2: the Cause type (1) has zero Length after `New` and
table-derived effective length 2; the decoded IE from `[1, 9]` has Length
zero. -/
theorem claim_C2_tv_length_witness :
    (tvLengthMap 1 = some 1
        ∧ ((New 1 [9]).length = 0 ∧ ((New 1 [9]).SetLength).length = 0 ∧ (New 1 [9]).Len = 2))
    ∧ (Decode [1, 9] = .ok { typ := 1, length := 0, payload := [9] }
        ∧ ({ typ := 1, length := 0, payload := [9] } : IE).length = 0) :=
  ⟨⟨rfl, claim_C2_tv_length.1 1 1 [9] rfl⟩,
    ⟨rfl, claim_C2_tv_length.2 [1, 9] { typ := 1, length := 0, payload := [9] } rfl rfl⟩⟩

/-- Claim C3: `DecodeMultiIEs` on the concatenation of N valid encodings
returns exactly those N IEs in their original order; with the final
encoding truncated by one byte it returns an error, never a shorter list. -/
theorem claim_C3_decodeMulti :
    (∀ L : List (Nat × List Nat), (∀ tp ∈ L, ValidTP tp.1 tp.2 ∧ tp.1 ≠ 0) →
        DecodeMultiIEs ((L.map encOf).flatten) = .ok (L.map (fun tp => New tp.1 tp.2)))
    ∧ (∀ L : List (Nat × List Nat), (∀ tp ∈ L, ValidTP tp.1 tp.2 ∧ tp.1 ≠ 0) → L ≠ [] →
        ∃ e, DecodeMultiIEs ((L.map encOf).flatten.dropLast) = .error e) := by
  have hmapenc : ∀ (L : List (Nat × List Nat)), (∀ tp ∈ L, ValidTP tp.1 tp.2 ∧ tp.1 ≠ 0) →
      L.map encOf = L.map (fun tp => encBytes tp.1 tp.2) := by
    intro L hL
    apply List.map_congr_left
    intro tp htp
    exact encOf_eq tp (hL tp htp).1
  constructor
  · intro L hL
    rw [hmapenc L hL]
    have h := multi_decode_append L hL []
    simpa [DecodeMultiIEs_nil, Except.map] using h
  · intro L hL hne
    rw [hmapenc L hL]
    obtain ⟨L0, tp, hcat⟩ := (List.eq_nil_or_concat L).resolve_left hne
    rw [List.concat_eq_append] at hcat
    subst hcat
    obtain ⟨hv, h0⟩ := hL tp (by simp)
    have hge := encBytes_len_ge tp.1 tp.2 hv h0
    have henc_ne : encBytes tp.1 tp.2 ≠ [] := by
      intro h
      rw [h] at hge
      simp at hge
    obtain ⟨hne2, e, hde⟩ := decode_truncated_fails tp.1 tp.2 hv h0
    rw [List.map_append, List.flatten_append]
    simp only [List.map_cons, List.map_nil, List.flatten_cons, List.flatten_nil,
      List.append_nil]
    rw [List.dropLast_append]
    simp only [henc_ne, if_neg, List.isEmpty_eq_true, ite_false]
    have htail : DecodeMultiIEs ((encBytes tp.1 tp.2).dropLast) = .error e :=
      DecodeMultiIEs_error _ (by simp only [ne_eq, List.length_eq_zero]; exact hne2) e hde
    have hall := multi_decode_append L0 (fun x hx => hL x (by simp [hx]))
      ((encBytes tp.1 tp.2).dropLast)
    rw [htail] at hall
    exact ⟨e, by rw [hall]; rfl⟩

/-- Witness for C3: two concatenated IEs (Cause `[1,5]`, TLV `[130,0,2,7,8]`)
decode to the two original IEs; dropping the final byte yields an error. -/
theorem claim_C3_decodeMulti_witness :
    DecodeMultiIEs [1, 5, 130, 0, 2, 7, 8] = .ok [New 1 [5], New 130 [7, 8]]
    ∧ ∃ e, DecodeMultiIEs [1, 5, 130, 0, 2, 7] = .error e := by
  have hL : ∀ tp ∈ [((1 : Nat), [(5 : Nat)]), (130, [7, 8])], ValidTP tp.1 tp.2 ∧ tp.1 ≠ 0 := by
    intro tp htp
    simp at htp
    rcases htp with h | h <;> subst h
    · exact ⟨rfl, by decide⟩
    · exact ⟨⟨by decide, by decide⟩, by decide⟩
  constructor
  · exact claim_C3_decodeMulti.1 [(1, [5]), (130, [7, 8])] hL
  · exact claim_C3_decodeMulti.2 [(1, [5]), (130, [7, 8])] hL (by simp)

/-- Claim C8: for a TV-format type present in the static table, `Len` is
the table length plus one regardless of the actual payload length, and
`Serialize` emits exactly the table-length payload bytes: a longer payload
is silently truncated, a shorter one zero-padded, with no error. -/
theorem claim_C8_tv_pad_truncate (t l : Nat) (p : List Nat)
    (hm : tvLengthMap t = some l) :
    (New t p).Len = l + 1
    ∧ (New t p).Serialize = .ok (t :: (p.take l ++ List.replicate (l - p.length) 0)) := by
  have ht : t < 128 := (tvLengthMap_bounds t l hm).1
  have hnew : New t p = { typ := t, length := 0, payload := p } := by
    simp [New, IE.SetLength, hm]
  have hlen : (New t p).Len = l + 1 := by simp [hnew, IE.Len, hm]
  refine ⟨hlen, ?_⟩
  rw [IE.Serialize, IE.SerializeTo, hlen]
  rw [if_neg (by simp)]
  simp only [hnew, IE.IsTV, decide_eq_true_eq]
  rw [if_pos (by exact ht)]
  have hset : (List.replicate (l + 1) 0).set 0 t = t :: List.replicate l 0 := by
    simp [List.replicate_succ]
  rw [hset]
  unfold copyInto
  simp only [Nat.add_sub_cancel]
  have hdrop : (t :: List.replicate l 0).drop (1 + min l p.length)
      = List.replicate (l - p.length) 0 := by
    rw [show 1 + min l p.length = min l p.length + 1 by omega]
    rw [List.drop_succ_cons]
    rw [List.drop_replicate]
    congr 1
    omega
  rw [hdrop]
  simp

/-- Witness for C8: the QoS type (6, table length 3) truncates a 5-byte
payload and zero-pads a 1-byte payload. -/
theorem claim_C8_tv_pad_truncate_witness :
    (tvLengthMap 6 = some 3
        ∧ (New 6 [1, 2, 3, 4, 5]).Len = 4
        ∧ (New 6 [1, 2, 3, 4, 5]).Serialize = .ok [6, 1, 2, 3])
    ∧ (New 6 [7]).Serialize = .ok [6, 7, 0, 0] := by
  refine ⟨⟨rfl, ?_, ?_⟩, ?_⟩
  · exact (claim_C8_tv_pad_truncate 6 3 [1, 2, 3, 4, 5] rfl).1
  · exact (claim_C8_tv_pad_truncate 6 3 [1, 2, 3, 4, 5] rfl).2
  · exact (claim_C8_tv_pad_truncate 6 3 [7] rfl).2

/-- Claim C9: a type byte below 128 absent from the static table decodes
from any buffer of at least 2 bytes into an IE with empty payload and
`Len` 1, and `DecodeMultiIEs` consumes exactly one byte for it, never
failing on it. -/
theorem claim_C9_unknown_tv (t : Nat) (rest : List Nat) (ht : t < 128)
    (hm : tvLengthMap t = none) (hr : rest ≠ []) :
    Decode (t :: rest) = .ok { typ := t, length := 0, payload := [] }
    ∧ IE.Len { typ := t, length := 0, payload := [] } = 1
    ∧ DecodeMultiIEs (t :: rest)
        = (DecodeMultiIEs rest).map (fun r => { typ := t, length := 0, payload := [] } :: r) := by
  have hrl : 0 < rest.length := List.length_pos.mpr hr
  have hlen1 : IE.Len { typ := t, length := 0, payload := ([] : List Nat) } = 1 := by
    simp [IE.Len, hm, ht]
  have hdec : Decode (t :: rest) = .ok { typ := t, length := 0, payload := [] } := by
    rw [Decode, IE.DecodeFromBytes]
    rw [if_neg (by simp only [List.length_cons]; omega)]
    simp only [List.getD_cons_zero, IE.IsTV, decide_eq_true_eq]
    rw [if_pos (by exact ht)]
    rw [decodeTVFromBytes, if_neg (by simp only [List.length_cons]; omega)]
    rw [hlen1, if_neg (by simp only [List.length_cons]; omega)]
    simp
  refine ⟨hdec, hlen1, ?_⟩
  rw [DecodeMultiIEs_cons (t :: rest) (by simp) _ hdec]
  rw [hlen1]
  simp

/-- Witness for C9: the unknown TV type 20 on the 2-byte buffer `[20, 0]`. -/
theorem claim_C9_unknown_tv_witness :
    ((20 : Nat) < 128 ∧ tvLengthMap 20 = none ∧ ([0] : List Nat) ≠ [])
    ∧ (Decode [20, 0] = .ok { typ := 20, length := 0, payload := [] }
      ∧ IE.Len { typ := 20, length := 0, payload := [] } = 1
      ∧ DecodeMultiIEs [20, 0]
          = (DecodeMultiIEs [0]).map (fun r => { typ := 20, length := 0, payload := [] } :: r)) :=
  ⟨⟨by omega, rfl, by simp⟩, claim_C9_unknown_tv 20 [0] (by omega) rfl (by simp)⟩

/-- The minimum header size of a buffer, by the format of its leading type
byte: 2 bytes for TV format, 3 for TLV (2 for the empty buffer, which has
no format). -/
def minHdr : List Nat → Nat
  | [] => 2
  | t :: _ => if t < 128 then 2 else 3

/-- The effective length a decode of the buffer would consume: the table
length plus one for table TV types, 1 for unknown TV types, and the
declared big-endian 2-byte length plus the 3-byte header for TLV types. -/
def effLen : List Nat → Nat
  | [] => 0
  | t :: rest =>
    if t < 128 then
      match tvLengthMap t with
      | some l => l + 1
      | none => 1
    else 3 + ((rest.getD 0 0) * 256 + rest.getD 1 0)

/-- Claim C4: `Decode` fails with `tooShortToDecode` exactly when the
buffer is shorter than the minimum header of its format; given enough
header bytes, it fails with `invalidLength` exactly when the effective
length exceeds the buffer; otherwise it succeeds. -/
theorem claim_C4_decode_errors (b : List Nat) :
    (Decode b = .error DecodeErr.tooShortToDecode ↔ b.length < minHdr b)
    ∧ (Decode b = .error DecodeErr.invalidLength
        ↔ minHdr b ≤ b.length ∧ b.length < effLen b)
    ∧ ((∃ i, Decode b = .ok i) ↔ minHdr b ≤ b.length ∧ effLen b ≤ b.length) := by
  cases b with
  | nil =>
    refine ⟨?_, ?_, ?_⟩ <;> simp [Decode, IE.DecodeFromBytes, minHdr, effLen]
  | cons t rest =>
    by_cases htv : t < 128
    · have hmh : minHdr (t :: rest) = 2 := by simp [minHdr, htv]
      by_cases h2 : rest.length + 1 < 2
      · have hrest : rest = [] := by
          cases rest with
          | nil => rfl
          | cons a as => simp only [List.length_cons] at h2; omega
        subst hrest
        have hd : Decode (t :: ([] : List Nat)) = .error DecodeErr.tooShortToDecode := by
          rw [Decode, IE.DecodeFromBytes]
          simp only [List.length_cons]
          rw [if_pos h2]
        cases hm : tvLengthMap t with
        | some l =>
          have hel : effLen (t :: ([] : List Nat)) = l + 1 := by simp [effLen, htv, hm]
          refine ⟨?_, ?_, ?_⟩ <;> simp [hd, hmh, hel] <;> omega
        | none =>
          have hel : effLen (t :: ([] : List Nat)) = 1 := by simp [effLen, htv, hm]
          refine ⟨?_, ?_, ?_⟩ <;> simp [hd, hmh, hel] <;> omega
      · have hdis : Decode (t :: rest)
            = decodeTVFromBytes { typ := t, length := 0, payload := [] } (t :: rest) := by
          rw [Decode, IE.DecodeFromBytes]
          simp only [List.length_cons, List.getD_cons_zero]
          rw [if_neg h2]
          rw [if_pos (by simp [IE.IsTV]; exact htv)]
        cases hm : tvLengthMap t with
        | some l =>
          have hel : effLen (t :: rest) = l + 1 := by simp [effLen, htv, hm]
          have hLen : IE.Len { typ := t, length := 0, payload := ([] : List Nat) } = l + 1 := by
            simp [IE.Len, hm]
          by_cases h3 : rest.length + 1 < l + 1
          · have hd : Decode (t :: rest) = .error DecodeErr.invalidLength := by
              rw [hdis, decodeTVFromBytes]
              simp only [List.length_cons]
              rw [if_neg h2, hLen, if_pos h3]
            refine ⟨?_, ?_, ?_⟩ <;> simp [hd, hmh, hel, List.length_cons] <;> omega
          · have hd : Decode (t :: rest) = .ok ({ typ := t, length := 0, payload := ((t :: rest).take (l + 1)).drop 1 } : IE) := by
              rw [hdis, decodeTVFromBytes]
              simp only [List.length_cons]
              rw [if_neg h2, hLen, if_neg h3]
            refine ⟨?_, ?_, ?_⟩ <;> simp [hd, hmh, hel, List.length_cons] <;> omega
        | none =>
          have hel : effLen (t :: rest) = 1 := by simp [effLen, htv, hm]
          have hLen : IE.Len { typ := t, length := 0, payload := ([] : List Nat) } = 1 := by
            simp [IE.Len, hm, htv]
          have hd : Decode (t :: rest) = .ok ({ typ := t, length := 0, payload := ((t :: rest).take 1).drop 1 } : IE) := by
            rw [hdis, decodeTVFromBytes]
            simp only [List.length_cons]
            rw [if_neg h2, hLen, if_neg (by omega)]
          refine ⟨?_, ?_, ?_⟩ <;> simp [hd, hmh, hel, List.length_cons] <;> omega
    · have hmh : minHdr (t :: rest) = 3 := by simp [minHdr, htv]
      have hel : effLen (t :: rest)
          = 3 + ((rest.getD 0 0) * 256 + rest.getD 1 0) := by
        simp [effLen, htv]
      by_cases h2 : rest.length + 1 < 2
      · have hrest : rest = [] := by
          cases rest with
          | nil => rfl
          | cons a as => simp only [List.length_cons] at h2; omega
        subst hrest
        have hd : Decode (t :: ([] : List Nat)) = .error DecodeErr.tooShortToDecode := by
          rw [Decode, IE.DecodeFromBytes]
          simp only [List.length_cons]
          rw [if_pos h2]
        refine ⟨?_, ?_, ?_⟩ <;> simp [hd, hmh, hel] <;> omega
      · have hdis : Decode (t :: rest)
            = decodeTLVFromBytes { typ := t, length := 0, payload := [] } (t :: rest) := by
          rw [Decode, IE.DecodeFromBytes]
          simp only [List.length_cons, List.getD_cons_zero]
          rw [if_neg h2]
          rw [if_neg (by simp [IE.IsTV]; omega)]
        by_cases h3 : rest.length + 1 < 3
        · have hd : Decode (t :: rest) = .error DecodeErr.tooShortToDecode := by
            rw [hdis, decodeTLVFromBytes]
            simp only [List.length_cons]
            rw [if_pos h3]
          refine ⟨?_, ?_, ?_⟩ <;> simp [hd, hmh, hel, List.length_cons] <;> omega
        · by_cases h4 : rest.length + 1 < rest.getD 0 0 * 256 + rest.getD 1 0 + 3
          · have hd : Decode (t :: rest) = .error DecodeErr.invalidLength := by
              rw [hdis, decodeTLVFromBytes]
              simp only [List.length_cons, List.getD_cons_succ, List.getD_cons_zero]
              rw [if_neg h3, if_pos h4]
            refine ⟨?_, ?_, ?_⟩ <;>
              simp [hd, hmh, hel, List.length_cons, List.getD_eq_getElem?_getD] at h4 ⊢ <;>
              omega
          · have hd : Decode (t :: rest) = .ok ({ typ := t, length := rest.getD 0 0 * 256 + rest.getD 1 0, payload := ((t :: rest).drop 3).take (rest.getD 0 0 * 256 + rest.getD 1 0) } : IE) := by
              rw [hdis, decodeTLVFromBytes]
              simp only [List.length_cons, List.getD_cons_succ, List.getD_cons_zero]
              rw [if_neg h3, if_neg h4]
            refine ⟨?_, ?_, ?_⟩ <;>
              simp [hd, hmh, hel, List.length_cons, List.getD_eq_getElem?_getD] at h4 ⊢ <;>
              omega

end V0

namespace V2

/-- Modelled from the spec: the interface roles of the per-direction TEID
mapping (the `v2.IFType...` constants used by the handlers). -/
inductive IFType
  | s11MMEGTPC
  | s11S4SGWGTPC
  | s1USGWGTPU
  | s1UeNodeBGTPU
  | s5S8SGWGTPC
  | s5S8PGWGTPC
  | s5S8SGWGTPU
  | s5S8PGWGTPU
deriving DecidableEq

/-- Modelled from the spec: the GTPv2 IE type names the handlers reference
(the `ies....` constants); the numeric codes are not in the source files, so
an enumeration is used. -/
inductive IETypeV2
  | imsi
  | msisdn
  | mobileEquipmentIdentity
  | accessPointName
  | servingNetwork
  | ratType
  | fullyQualifiedTEID
  | indication
  | epsBearerID
  | chargingID
  | bearerQoS
  | cause
deriving DecidableEq

/-- Modelled from the spec: the protocol-level cause codes the handlers
send on the wire. -/
inductive CauseV2
  | requestAccepted
  | noResourcesAvailable
  | pgwNotResponding
deriving DecidableEq

/-- Modelled from the spec: the error taxonomy of the v2 library as used by
the handlers (`RequiredIEMissing(type)`, `UnknownIMSI`, `UnknownTEID`,
`UnknownInterface`, `UnexpectedMessageType`, `Timeout`). -/
inductive GtpErr
  | requiredIEMissing (t : IETypeV2)
  | unknownIMSI
  | unknownTEID
  | unknownInterface
  | unexpectedType
  | timeout
deriving DecidableEq

/-- Modelled from the spec: a fully-qualified tunnel endpoint — an IE
carrying an interface role, a TEID, the owner address and an instance
discriminator. -/
structure FTEID where
  ifType : IFType
  teid : Nat
  ip : String
  inst : Nat
deriving DecidableEq

/-- Modelled from the spec: a Bearer — one QoS-scoped data flow with bearer
id, access-point name, and the remote endpoint of its user-plane tunnel. -/
structure Bearer where
  ebi : Nat
  apn : String
  outgoingTEID : Nat
  remoteAddr : String
deriving DecidableEq

/-- Modelled from the spec: a Session — one subscriber's control-plane
context: subscriber identity (IMSI), MSISDN, device identity, network
identifiers, RAT type, the role-to-TEID mapping, the default bearer, and a
lifecycle flag. -/
structure Session where
  peerAddr : String
  imsi : String
  msisdn : String
  imei : String
  mcc : String
  mnc : String
  ratType : Nat
  teids : List (IFType × Nat)
  bearer : Bearer
  active : Bool
deriving DecidableEq

/-- Modelled from the spec: `v2.NewSession` — a fresh Session for a peer
address, with a default bearer (the handlers use bearer id 5). -/
def NewSession (peerAddr : String) : Session :=
  { peerAddr := peerAddr, imsi := "", msisdn := "", imei := "", mcc := "", mnc := "",
    ratType := 0, teids := [], bearer := { ebi := 5, apn := "", outgoingTEID := 0, remoteAddr := "" },
    active := false }

/-- Modelled from the spec: `Session.AddTEID` records the endpoint for a
role; lookups see the most recent entry for a role. -/
def Session.addTEID (s : Session) (r : IFType) (t : Nat) : Session :=
  { s with teids := (r, t) :: s.teids }

/-- Modelled from the spec: `Session.GetTEID` — the recorded TEID for a
role; `none` models the `UnknownInterface` failure. -/
def Session.getTEID (s : Session) (r : IFType) : Option Nat :=
  (s.teids.find? (fun x => decide (x.1 = r))).map (fun x => x.2)

/-- Modelled from the spec: a Connection's session store (the TEID- and
IMSI-indexed views over one list, always updated together) and its
monotonically allocated TEID counter. -/
structure Conn where
  sessions : List Session
  teidSeq : Nat
deriving DecidableEq

/-- Modelled from the spec: `GetSessionByIMSI`; `none` models the
`UnknownIMSI` failure. -/
def Conn.getSessionByIMSI (c : Conn) (v : String) : Option Session :=
  c.sessions.find? (fun s => decide (s.imsi = v))

/-- Modelled from the spec: `GetSessionByTEID` — the session on which the
TEID is registered; `none` models the `UnknownTEID` failure. -/
def Conn.getSessionByTEID (c : Conn) (t : Nat) : Option Session :=
  c.sessions.find? (fun s => (s.teids.map (fun x => x.2)).contains t)

/-- Modelled from the spec: `RemoveSession` detaches the session (keyed by
its subscriber identity) from both indices. -/
def Conn.removeSession (c : Conn) (s : Session) : Conn :=
  { c with sessions := c.sessions.filter (fun x => decide (x.imsi ≠ s.imsi)) }

/-- Modelled from the spec: `AddSession` with replace semantics — a new
Session for an existing IMSI displaces the old one, both indices updated
together. -/
def Conn.addSession (c : Conn) (s : Session) : Conn :=
  { c with sessions := s :: c.sessions.filter (fun x => decide (x.imsi ≠ s.imsi)) }

/-- Modelled from the spec: `NewFTEID` allocates a fresh Connection-local
TEID and wraps it with the given address as a fully-qualified tunnel
endpoint IE. -/
def Conn.newFTEID (c : Conn) (r : IFType) (ip : String) : FTEID × Conn :=
  ({ ifType := r, teid := c.teidSeq + 1, ip := ip, inst := 0 },
    { c with teidSeq := c.teidSeq + 1 })

/-- Go sessions are pointers: a mutation of a session object is visible
through the store that holds it.  This helper applies the mutation to the
stored copy (keyed by IMSI, unique in the store by replace semantics). -/
def Conn.updByIMSI (c : Conn) (v : String) (f : Session → Session) : Conn :=
  { c with sessions := c.sessions.map (fun x => if x.imsi = v then f x else x) }

/-- Same pointer-mutation helper keyed by the whole session value. -/
def Conn.replaceSession (c : Conn) (old upd : Session) : Conn :=
  { c with sessions := c.sessions.map (fun x => if x = old then upd else x) }

/-- A child IE of a grouped bearer-context IE, as the handlers inspect
them. -/
inductive BCChild
  | fteid (f : FTEID)
  | indication
  | epsBearerID (n : Nat)
  | bearerQoS
  | chargingID (v : Nat)
  | causeChild (c : CauseV2)
deriving DecidableEq

/-- Whether a bearer-context child is a charging identifier (the child kind
`BearerContextsCreated.Remove(ies.ChargingID, 0)` removes). -/
def BCChild.isChargingID : BCChild → Bool
  | .chargingID _ => true
  | _ => false

/-- Modelled from the spec: the fields of `messages.CreateSessionRequest`
the handler reads.  IEs the handler only forwards opaquely upstream
(indication flags, selection mode, PDN type, PAA, APN restriction, AMBR,
ULI, MME FQ-CSID) are omitted; `none` models an absent IE. -/
structure CreateSessionRequest where
  seq : Nat
  pgwS5S8FTEIDC : Option FTEID
  senderFTEIDC : Option FTEID
  imsi : Option String
  msisdn : Option String
  mei : Option String
  apn : Option String
  servingNetwork : Option (String × String)
  ratType : Option Nat
deriving DecidableEq

/-- Modelled from the spec: the fields of `messages.CreateSessionResponse`
the handler touches. -/
structure CreateSessionResponse where
  teid : Nat
  seq : Nat
  cause : Option CauseV2
  senderFTEIDC : Option FTEID
  sgwFQCSID : Option String
  bearerContextsCreated : List BCChild
deriving DecidableEq

/-- Modelled from the spec: `messages.NewCreateSessionResponse` with a
cause IE. -/
def NewCreateSessionResponse (teid seq : Nat) (c : CauseV2) : CreateSessionResponse :=
  { teid := teid, seq := seq, cause := some c, senderFTEIDC := none, sgwFQCSID := none,
    bearerContextsCreated := [] }

/-- The outcome of the bounded `WaitMessage(5s)` for the upstream response,
made an explicit input to sequentialize the response-await task: `timeout`
is the elapsed 5-second wait (the spec `Timeout` failure), `wrongType` a
message of another kind, `csRsp` a Create Session Response. -/
inductive WaitResult
  | timeout
  | wrongType
  | csRsp (m : CreateSessionResponse)
deriving DecidableEq

/-- Modelled from the spec: the equivalent Create Session Request that
`s5cConn.CreateSession` builds and sends upstream — the same subscriber IEs
plus the newly allocated endpoints. -/
structure UpstreamCSReq where
  raddr : String
  imsi : Option String
  msisdn : Option String
  mei : Option String
  apn : Option String
  servingNetwork : Option (String × String)
  ratType : Option Nat
  s5cFTEID : FTEID
  s5uFTEID : FTEID
  pgwFTEIDC : Option FTEID
deriving DecidableEq

/-- The ambient S-GW state the handlers reach: the two control-plane
Connections and the configured local addresses (from the `*s5c`, `*s11`,
`*s1u` flags; address resolution is modelled as total on these opaque
strings). -/
structure SgwState where
  s11Conn : Conn
  s5cConn : Conn
  s5cIP : String
  s11IP : String
  s1uIP : String
deriving DecidableEq

/-- The observable outcome of one `handleCreateSessionRequest` run: the two
stores afterwards, the responses sent to the requester (`RespondTo`, which
copies the request sequence number), the requests sent upstream, and the
value returned to the dispatcher (`none` is a nil error). -/
structure CreateResult where
  s11Conn : Conn
  s5cConn : Conn
  sentToMME : List (String × CreateSessionResponse)
  sentUpstream : List UpstreamCSReq
  ret : Option GtpErr
deriving DecidableEq

/-- The `handleCreateSessionRequest` flow, translated from the source with
the v2 library operations modelled from the spec and the response-await
task sequentialized over `wait`.  The required-IE checks, the displacement
of a previous session for the same IMSI, the store insertions, the
upstream send, the timeout response and the removal on failure follow the
source order; the `Activate` call on success follows the source, whose
error check inspects the outer (nil) `err` variable and therefore never
fires. -/
def handleCreateSessionRequest (sgw : SgwState) (mmeAddr : String)
    (msg : CreateSessionRequest) (wait : WaitResult) : CreateResult :=
  let s11Session0 := NewSession mmeAddr
  match msg.pgwS5S8FTEIDC with
  | none => ⟨sgw.s11Conn, sgw.s5cConn, [], [], some (.requiredIEMissing .fullyQualifiedTEID)⟩
  | some pgwFTEID =>
    let pgwAddr := pgwFTEID.ip ++ ":2123"
    let s11Session1 := s11Session0.addTEID .s5S8PGWGTPC pgwFTEID.teid
    match msg.senderFTEIDC with
    | none => ⟨sgw.s11Conn, sgw.s5cConn, [], [], some (.requiredIEMissing .fullyQualifiedTEID)⟩
    | some senderFTEID =>
      let s11Session2 := s11Session1.addTEID .s11MMEGTPC senderFTEID.teid
      match msg.imsi with
      | none => ⟨sgw.s11Conn, sgw.s5cConn, [], [], some (.requiredIEMissing .imsi)⟩
      | some imsiV =>
        let s11Conn1 :=
          match sgw.s11Conn.getSessionByIMSI imsiV with
          | some sess => sgw.s11Conn.removeSession sess
          | none => sgw.s11Conn
        let s11Session3 := { s11Session2 with imsi := imsiV }
        match msg.msisdn with
        | none => ⟨s11Conn1, sgw.s5cConn, [], [], some (.requiredIEMissing .msisdn)⟩
        | some msisdnV =>
          let s11Session4 := { s11Session3 with msisdn := msisdnV }
          match msg.mei with
          | none => ⟨s11Conn1, sgw.s5cConn, [], [], some (.requiredIEMissing .mobileEquipmentIdentity)⟩
          | some meiV =>
            let s11Session5 := { s11Session4 with imei := meiV }
            match msg.apn with
            | none => ⟨s11Conn1, sgw.s5cConn, [], [], some (.requiredIEMissing .accessPointName)⟩
            | some apnV =>
              let s11Session6 :=
                { s11Session5 with bearer := { s11Session5.bearer with apn := apnV } }
              match msg.servingNetwork with
              | none => ⟨s11Conn1, sgw.s5cConn, [], [], some (.requiredIEMissing .servingNetwork)⟩
              | some sn =>
                let s11Session7 := { s11Session6 with mcc := sn.1, mnc := sn.2 }
                match msg.ratType with
                | none => ⟨s11Conn1, sgw.s5cConn, [], [], some (.requiredIEMissing .ratType)⟩
                | some ratV =>
                  let s11Session8 := { s11Session7 with ratType := ratV }
                  let s11Conn2 := s11Conn1.addSession s11Session8
                  let p1 := sgw.s5cConn.newFTEID .s5S8SGWGTPC sgw.s5cIP
                  let s5cFTEID := p1.1
                  let p2 := p1.2.newFTEID .s5S8SGWGTPU sgw.s5cIP
                  let s5uFTEID := { p2.1 with inst := 2 }
                  let s5cConn2 := p2.2
                  let s5Session0 : Session :=
                    { NewSession pgwAddr with
                      imsi := imsiV, msisdn := msisdnV, imei := meiV,
                      mcc := sn.1, mnc := sn.2, ratType := ratV,
                      teids := [(.s5S8SGWGTPC, s5cFTEID.teid), (.s5S8PGWGTPC, pgwFTEID.teid)],
                      bearer := { ebi := 5, apn := apnV, outgoingTEID := 0, remoteAddr := "" } }
                  let upMsg : UpstreamCSReq :=
                    ⟨pgwAddr, msg.imsi, msg.msisdn, msg.mei, msg.apn, msg.servingNetwork,
                      msg.ratType, s5cFTEID, s5uFTEID, msg.pgwS5S8FTEIDC⟩
                  let s5Session1 := s5Session0.addTEID s5uFTEID.ifType s5uFTEID.teid
                  let s5cConn3 := s5cConn2.addSession s5Session1
                  match s11Session8.getTEID .s11MMEGTPC with
                  | none =>
                    ⟨s11Conn2.removeSession s11Session8, s5cConn3, [], [upMsg],
                      some .unknownInterface⟩
                  | some s11mmeTEID =>
                    match wait with
                    | .timeout =>
                      let rsp0 := NewCreateSessionResponse s11mmeTEID 0 .noResourcesAvailable
                      let rsp := { rsp0 with seq := msg.seq }
                      ⟨s11Conn2.removeSession s11Session8, s5cConn3, [(mmeAddr, rsp)], [upMsg],
                        some .timeout⟩
                    | .wrongType =>
                      ⟨s11Conn2.removeSession s11Session8, s5cConn3, [], [upMsg],
                        some .unexpectedType⟩
                    | .csRsp m =>
                      let q1 := s11Conn2.newFTEID .s11S4SGWGTPC sgw.s11IP
                      let senderF := q1.1
                      let q2 := q1.2.newFTEID .s1USGWGTPU sgw.s11IP
                      let s1usgwF := q2.1
                      let s11Conn4 := q2.2
                      let rsp := { m with
                        senderFTEIDC := some senderF,
                        sgwFQCSID := some sgw.s5cIP,
                        bearerContextsCreated :=
                          (m.bearerContextsCreated ++ [BCChild.fteid s1usgwF]).filter
                            (fun c => !c.isChargingID),
                        teid := s11mmeTEID, seq := msg.seq }
                      let s11Session9 :=
                        (s11Session8.addTEID senderF.ifType senderF.teid).addTEID
                          s1usgwF.ifType s1usgwF.teid
                      let s11Conn5 := s11Conn4.updByIMSI imsiV
                        (fun s => (s.addTEID senderF.ifType senderF.teid).addTEID
                          s1usgwF.ifType s1usgwF.teid)
                      match s11Session9.getTEID .s11S4SGWGTPC, s5Session1.getTEID .s5S8PGWGTPC,
                          s5Session1.getTEID .s5S8SGWGTPC with
                      | some _, some _, some _ =>
                        ⟨s11Conn5.updByIMSI imsiV (fun s => { s with active := true }), s5cConn3,
                          [(mmeAddr, rsp)], [upMsg], none⟩
                      | _, _, _ =>
                        ⟨s11Conn5.removeSession s11Session9, s5cConn3, [(mmeAddr, rsp)], [upMsg],
                          some .unknownInterface⟩

/-- Modelled from the spec: the fields of `messages.ModifyBearerRequest`
the handler reads. -/
structure ModifyBearerRequest where
  teid : Nat
  seq : Nat
  bearerContextsToBeModified : Option (List BCChild)
deriving DecidableEq

/-- Modelled from the spec: the Modify Bearer Response the handler builds —
a cause and a grouped bearer context with a cause, the bearer id, and the
resolved local S1-U tunnel-endpoint IE. -/
structure ModifyBearerResponse where
  teid : Nat
  seq : Nat
  cause : CauseV2
  bearerCause : CauseV2
  bearerEBI : Nat
  bearerFTEID : FTEID
deriving DecidableEq

/-- Modelled from the spec: one direction of the user-plane relay table
(`RelayTo`): which user-plane connection the entry is installed on, the
ingress TEID, the egress TEID, and the destination address. -/
structure RelayEntry where
  uplane : String
  ingressTEID : Nat
  egressTEID : Nat
  dst : String
deriving DecidableEq

/-- The observable outcome of one `handleModifyBearerRequest` run. -/
structure ModifyResult where
  s11Conn : Conn
  sentToMME : List (String × ModifyBearerResponse)
  sentUpstream : List UpstreamCSReq
  relays : List RelayEntry
  ret : Option GtpErr
deriving DecidableEq

/-- The `handleFTEIDU` helper, translated from the source: on a
fully-qualified tunnel-endpoint child, record the remote address (with the
user-plane port) and outgoing TEID on the default bearer and the endpoint
mapping on the session; any other child kind is the `UnexpectedType`
error.  Address resolution is modelled as total. -/
def handleFTEIDU (c : BCChild) (session : Session) : Except GtpErr Session :=
  match c with
  | .fteid f =>
    .ok (({ session with
      bearer := { session.bearer with remoteAddr := f.ip ++ ":2152", outgoingTEID := f.teid }
    }).addTEID f.ifType f.teid)
  | _ => .error .unexpectedType

/-- The child-scan loop of `handleModifyBearerRequest`: a fully-qualified
tunnel-endpoint child goes through `handleFTEIDU` (whose error branch is
unreachable from here, since only such children are passed); any other
child kind, including the indication placeholder, is a no-op. -/
def processChildren (s : Session) (cs : List BCChild) : Except GtpErr Session :=
  match cs with
  | [] => .ok s
  | c :: rest =>
    match c with
    | .fteid f =>
      match handleFTEIDU (.fteid f) s with
      | .error e => .error e
      | .ok s2 => processChildren s2 rest
    | _ => processChildren s rest

/-- The session after the bearer-modification children of the request have
been applied (identity when the grouped IE is absent). -/
def mbProcessed (s : Session) (msg : ModifyBearerRequest) : Except GtpErr Session :=
  match msg.bearerContextsToBeModified with
  | some cs => processChildren s cs
  | none => .ok s

/-- The `handleModifyBearerRequest` flow, translated from the source with
the v2 library operations modelled from the spec: resolve the session by
TEID and the peer session by IMSI, apply the bearer-context children (a
pointer mutation of the stored session), resolve the three endpoint TEIDs,
install the two relay directions, and respond to the requester with an
accepted cause and the local S1-U endpoint; nothing is sent upstream. -/
def handleModifyBearerRequest (sgw : SgwState) (mmeAddr : String)
    (msg : ModifyBearerRequest) : ModifyResult :=
  match sgw.s11Conn.getSessionByTEID msg.teid with
  | none => ⟨sgw.s11Conn, [], [], [], some .unknownTEID⟩
  | some s11Session =>
    match sgw.s5cConn.getSessionByIMSI s11Session.imsi with
    | none => ⟨sgw.s11Conn, [], [], [], some .unknownIMSI⟩
    | some s5cSession =>
      match mbProcessed s11Session msg with
      | .error e => ⟨sgw.s11Conn, [], [], [], some e⟩
      | .ok s11Session2 =>
        let s11Conn1 := sgw.s11Conn.replaceSession s11Session s11Session2
        match s11Session2.getTEID .s11MMEGTPC with
        | none => ⟨s11Conn1, [], [], [], some .unknownInterface⟩
        | some s11mmeTEID =>
          match s11Session2.getTEID .s1USGWGTPU with
          | none => ⟨s11Conn1, [], [], [], some .unknownInterface⟩
          | some s1usgwTEID =>
            match s5cSession.getTEID .s5S8SGWGTPU with
            | none => ⟨s11Conn1, [], [], [], some .unknownInterface⟩
            | some s5usgwTEID =>
              let relays : List RelayEntry :=
                [⟨"s1u", s1usgwTEID, s5cSession.bearer.outgoingTEID, s5cSession.bearer.remoteAddr⟩,
                 ⟨"s5u", s5usgwTEID, s11Session2.bearer.outgoingTEID, s11Session2.bearer.remoteAddr⟩]
              let rsp : ModifyBearerResponse :=
                ⟨s11mmeTEID, msg.seq, .requestAccepted, .requestAccepted,
                  s11Session2.bearer.ebi, ⟨.s1USGWGTPU, s1usgwTEID, sgw.s1uIP, 0⟩⟩
              ⟨s11Conn1, [(mmeAddr, rsp)], [], relays, none⟩

/-- A session found by IMSI carries that IMSI. -/
theorem getSessionByIMSI_imsi (c : Conn) (v : String) (s : Session)
    (h : c.getSessionByIMSI v = some s) : s.imsi = v := by
  unfold Conn.getSessionByIMSI at h
  have h2 := List.find?_some h
  simpa using h2

/-- Filtering out one subscriber identity twice is the same as once. -/
theorem filter_imsi_idem (l : List Session) (v : String) :
    (l.filter (fun x => decide (x.imsi ≠ v))).filter (fun x => decide (x.imsi ≠ v))
      = l.filter (fun x => decide (x.imsi ≠ v)) := by
  induction l with
  | nil => rfl
  | cons a l ih =>
    by_cases h : a.imsi = v
    · simp [List.filter_cons, h, ih]
    · simp [List.filter_cons, h, ih]

/-- The first required IE absent from a Create Session Request, in the
order the handler checks them (`none` when all are present).  Both
tunnel-endpoint checks report the fully-qualified tunnel-endpoint type. -/
def firstMissing (m : CreateSessionRequest) : Option IETypeV2 :=
  if m.pgwS5S8FTEIDC.isNone then some .fullyQualifiedTEID
  else if m.senderFTEIDC.isNone then some .fullyQualifiedTEID
  else if m.imsi.isNone then some .imsi
  else if m.msisdn.isNone then some .msisdn
  else if m.mei.isNone then some .mobileEquipmentIdentity
  else if m.apn.isNone then some .accessPointName
  else if m.servingNetwork.isNone then some .servingNetwork
  else if m.ratType.isNone then some .ratType
  else none

/-- A pre-existing session for the subscriber of the sample request. -/
def sampleOldSession : Session :=
  { NewSession "mme0" with imsi := "001010000000001" }

/-- A sample S-GW state whose S11 store already holds `sampleOldSession`. -/
def sampleSgw : SgwState :=
  { s11Conn := { sessions := [sampleOldSession], teidSeq := 0 },
    s5cConn := { sessions := [], teidSeq := 0 },
    s5cIP := "10.0.0.1", s11IP := "10.0.0.2", s1uIP := "10.0.0.3" }

/-- A request for the same subscriber with the device identity IE absent
and every earlier-checked IE present. -/
def sampleReqMissingMEI : CreateSessionRequest :=
  { seq := 1,
    pgwS5S8FTEIDC := some { ifType := .s5S8PGWGTPC, teid := 100, ip := "10.0.0.9", inst := 0 },
    senderFTEIDC := some { ifType := .s11MMEGTPC, teid := 200, ip := "10.0.0.8", inst := 0 },
    imsi := some "001010000000001", msisdn := some "12345", mei := none,
    apn := some "internet", servingNetwork := some ("001", "01"), ratType := some 6 }

/-- Claim C5, counterexample: on a request missing the device identity IE,
the handler returns `RequiredIEMissing` and sends nothing upstream, but the
S11 store is NOT left unchanged — the pre-existing session for the same
subscriber was already removed when the subscriber-identity IE was
processed, so the error path is not atomic on the stores. -/
theorem claim_C5_counterexample :
    (handleCreateSessionRequest sampleSgw "mme0" sampleReqMissingMEI .timeout).ret
        = some (GtpErr.requiredIEMissing .mobileEquipmentIdentity)
    ∧ (handleCreateSessionRequest sampleSgw "mme0" sampleReqMissingMEI .timeout).sentUpstream = []
    ∧ (handleCreateSessionRequest sampleSgw "mme0" sampleReqMissingMEI .timeout).sentToMME = []
    ∧ (handleCreateSessionRequest sampleSgw "mme0" sampleReqMissingMEI .timeout).s11Conn.sessions
        = []
    ∧ sampleSgw.s11Conn.sessions ≠ [] := by
  refine ⟨rfl, rfl, rfl, rfl, by simp [sampleSgw]⟩

/-- Claim C5 (amended): on a Create Session Request missing a required IE,
the handler returns `RequiredIEMissing` naming the absent IE type (per the
first failing check), sends nothing to the requester or upstream, adds no
session to either store and leaves the S5 store unchanged; the S11 store is
either unchanged or — when the missing IE is checked after the
subscriber-identity IE — has exactly the pre-existing session of the
request subscriber removed (the displacement removal has already run, so
the error path is not atomic on the S11 store). -/
theorem claim_C5_missing_ie (sgw : SgwState) (mmeAddr : String)
    (msg : CreateSessionRequest) (wait : WaitResult) (t : IETypeV2)
    (h : firstMissing msg = some t) :
    (handleCreateSessionRequest sgw mmeAddr msg wait).ret = some (.requiredIEMissing t)
    ∧ (handleCreateSessionRequest sgw mmeAddr msg wait).sentToMME = []
    ∧ (handleCreateSessionRequest sgw mmeAddr msg wait).sentUpstream = []
    ∧ (handleCreateSessionRequest sgw mmeAddr msg wait).s5cConn = sgw.s5cConn
    ∧ ((handleCreateSessionRequest sgw mmeAddr msg wait).s11Conn = sgw.s11Conn
        ∨ ∃ v, msg.imsi = some v
            ∧ (handleCreateSessionRequest sgw mmeAddr msg wait).s11Conn.sessions
                = sgw.s11Conn.sessions.filter (fun x => decide (x.imsi ≠ v))) := by
  cases hpgw : msg.pgwS5S8FTEIDC with
  | none =>
    simp [firstMissing, hpgw] at h
    subst h
    refine ⟨?_, ?_, ?_, ?_, Or.inl ?_⟩ <;> simp [handleCreateSessionRequest, hpgw]
  | some pgw =>
  cases hsnd : msg.senderFTEIDC with
  | none =>
    simp [firstMissing, hpgw, hsnd] at h
    subst h
    refine ⟨?_, ?_, ?_, ?_, Or.inl ?_⟩ <;> simp [handleCreateSessionRequest, hpgw, hsnd]
  | some snd =>
  cases him : msg.imsi with
  | none =>
    simp [firstMissing, hpgw, hsnd, him] at h
    subst h
    refine ⟨?_, ?_, ?_, ?_, Or.inl ?_⟩ <;> simp [handleCreateSessionRequest, hpgw, hsnd, him]
  | some v =>
  cases hmsi : msg.msisdn with
  | none =>
    simp [firstMissing, hpgw, hsnd, him, hmsi] at h
    subst h
    cases hfind : sgw.s11Conn.getSessionByIMSI v with
    | none =>
      refine ⟨?_, ?_, ?_, ?_, Or.inl ?_⟩ <;>
        simp [handleCreateSessionRequest, hpgw, hsnd, him, hmsi, hfind]
    | some old =>
      have hov : old.imsi = v := getSessionByIMSI_imsi _ _ _ hfind
      refine ⟨?_, ?_, ?_, ?_, Or.inr ⟨v, rfl, ?_⟩⟩ <;>
        simp [handleCreateSessionRequest, hpgw, hsnd, him, hmsi, hfind,
          Conn.removeSession, hov]
  | some md =>
  cases hmei : msg.mei with
  | none =>
    simp [firstMissing, hpgw, hsnd, him, hmsi, hmei] at h
    subst h
    cases hfind : sgw.s11Conn.getSessionByIMSI v with
    | none =>
      refine ⟨?_, ?_, ?_, ?_, Or.inl ?_⟩ <;>
        simp [handleCreateSessionRequest, hpgw, hsnd, him, hmsi, hmei, hfind]
    | some old =>
      have hov : old.imsi = v := getSessionByIMSI_imsi _ _ _ hfind
      refine ⟨?_, ?_, ?_, ?_, Or.inr ⟨v, rfl, ?_⟩⟩ <;>
        simp [handleCreateSessionRequest, hpgw, hsnd, him, hmsi, hmei, hfind,
          Conn.removeSession, hov]
  | some me =>
  cases hapn : msg.apn with
  | none =>
    simp [firstMissing, hpgw, hsnd, him, hmsi, hmei, hapn] at h
    subst h
    cases hfind : sgw.s11Conn.getSessionByIMSI v with
    | none =>
      refine ⟨?_, ?_, ?_, ?_, Or.inl ?_⟩ <;>
        simp [handleCreateSessionRequest, hpgw, hsnd, him, hmsi, hmei, hapn, hfind]
    | some old =>
      have hov : old.imsi = v := getSessionByIMSI_imsi _ _ _ hfind
      refine ⟨?_, ?_, ?_, ?_, Or.inr ⟨v, rfl, ?_⟩⟩ <;>
        simp [handleCreateSessionRequest, hpgw, hsnd, him, hmsi, hmei, hapn, hfind,
          Conn.removeSession, hov]
  | some ap =>
  cases hsn : msg.servingNetwork with
  | none =>
    simp [firstMissing, hpgw, hsnd, him, hmsi, hmei, hapn, hsn] at h
    subst h
    cases hfind : sgw.s11Conn.getSessionByIMSI v with
    | none =>
      refine ⟨?_, ?_, ?_, ?_, Or.inl ?_⟩ <;>
        simp [handleCreateSessionRequest, hpgw, hsnd, him, hmsi, hmei, hapn, hsn, hfind]
    | some old =>
      have hov : old.imsi = v := getSessionByIMSI_imsi _ _ _ hfind
      refine ⟨?_, ?_, ?_, ?_, Or.inr ⟨v, rfl, ?_⟩⟩ <;>
        simp [handleCreateSessionRequest, hpgw, hsnd, him, hmsi, hmei, hapn, hsn, hfind,
          Conn.removeSession, hov]
  | some sn =>
  cases hrat : msg.ratType with
  | none =>
    simp [firstMissing, hpgw, hsnd, him, hmsi, hmei, hapn, hsn, hrat] at h
    subst h
    cases hfind : sgw.s11Conn.getSessionByIMSI v with
    | none =>
      refine ⟨?_, ?_, ?_, ?_, Or.inl ?_⟩ <;>
        simp [handleCreateSessionRequest, hpgw, hsnd, him, hmsi, hmei, hapn, hsn, hrat, hfind]
    | some old =>
      have hov : old.imsi = v := getSessionByIMSI_imsi _ _ _ hfind
      refine ⟨?_, ?_, ?_, ?_, Or.inr ⟨v, rfl, ?_⟩⟩ <;>
        simp [handleCreateSessionRequest, hpgw, hsnd, him, hmsi, hmei, hapn, hsn, hrat, hfind,
          Conn.removeSession, hov]
  | some rat =>
    simp [firstMissing, hpgw, hsnd, him, hmsi, hmei, hapn, hsn, hrat] at h

/-- Witness for C5: the sample request missing the device identity IE
against the sample state. -/
theorem claim_C5_missing_ie_witness :
    firstMissing sampleReqMissingMEI = some .mobileEquipmentIdentity
    ∧ ((handleCreateSessionRequest sampleSgw "mme0" sampleReqMissingMEI .timeout).ret
          = some (.requiredIEMissing .mobileEquipmentIdentity)
      ∧ (handleCreateSessionRequest sampleSgw "mme0" sampleReqMissingMEI .timeout).sentToMME = []
      ∧ (handleCreateSessionRequest sampleSgw "mme0" sampleReqMissingMEI .timeout).sentUpstream = []
      ∧ (handleCreateSessionRequest sampleSgw "mme0" sampleReqMissingMEI .timeout).s5cConn
          = sampleSgw.s5cConn
      ∧ ((handleCreateSessionRequest sampleSgw "mme0" sampleReqMissingMEI .timeout).s11Conn
            = sampleSgw.s11Conn
          ∨ ∃ v, sampleReqMissingMEI.imsi = some v
              ∧ (handleCreateSessionRequest sampleSgw "mme0" sampleReqMissingMEI
                  .timeout).s11Conn.sessions
                  = sampleSgw.s11Conn.sessions.filter (fun x => decide (x.imsi ≠ v)))) :=
  ⟨rfl, claim_C5_missing_ie sampleSgw "mme0" sampleReqMissingMEI .timeout
    .mobileEquipmentIdentity rfl⟩

/-- Claim C6: on a Create Session flow with all required IEs present whose
upstream peer does not respond within the bounded wait, the handler sends
the requester a synthesized Create Session Response carrying the
no-resources-available cause and the requester control TEID (with the
request sequence number), removes the requester-side session from the S11
store (leaving other subscribers untouched), forwarded exactly one request
upstream, and returns the timeout error. -/
theorem claim_C6_timeout (sgw : SgwState) (mmeAddr : String) (msg : CreateSessionRequest)
    (sf : FTEID) (v : String)
    (hall : firstMissing msg = none)
    (hsf : msg.senderFTEIDC = some sf)
    (hv : msg.imsi = some v) :
    (handleCreateSessionRequest sgw mmeAddr msg .timeout).ret = some .timeout
    ∧ (handleCreateSessionRequest sgw mmeAddr msg .timeout).sentToMME
        = [(mmeAddr,
            { teid := sf.teid, seq := msg.seq, cause := some .noResourcesAvailable,
              senderFTEIDC := none, sgwFQCSID := none, bearerContextsCreated := [] })]
    ∧ (handleCreateSessionRequest sgw mmeAddr msg .timeout).s11Conn.sessions
        = sgw.s11Conn.sessions.filter (fun x => decide (x.imsi ≠ v))
    ∧ (handleCreateSessionRequest sgw mmeAddr msg .timeout).sentUpstream.length = 1 := by
  cases hpgw : msg.pgwS5S8FTEIDC with
  | none => simp [firstMissing, hpgw] at hall
  | some pgw =>
  cases hmsi : msg.msisdn with
  | none => simp [firstMissing, hpgw, hsf, hv, hmsi] at hall
  | some md =>
  cases hmei : msg.mei with
  | none => simp [firstMissing, hpgw, hsf, hv, hmsi, hmei] at hall
  | some me =>
  cases hapn : msg.apn with
  | none => simp [firstMissing, hpgw, hsf, hv, hmsi, hmei, hapn] at hall
  | some ap =>
  cases hsn : msg.servingNetwork with
  | none => simp [firstMissing, hpgw, hsf, hv, hmsi, hmei, hapn, hsn] at hall
  | some sn =>
  cases hrat : msg.ratType with
  | none => simp [firstMissing, hpgw, hsf, hv, hmsi, hmei, hapn, hsn, hrat] at hall
  | some rat =>
  cases hfind : sgw.s11Conn.getSessionByIMSI v with
  | none =>
    refine ⟨?_, ?_, ?_, ?_⟩ <;>
      simp [handleCreateSessionRequest, hpgw, hsf, hv, hmsi, hmei, hapn, hsn, hrat, hfind,
        Session.addTEID, Session.getTEID, NewSession, NewCreateSessionResponse,
        Conn.addSession, Conn.removeSession, Conn.newFTEID, filter_imsi_idem]
  | some old =>
    have hov : old.imsi = v := getSessionByIMSI_imsi _ _ _ hfind
    refine ⟨?_, ?_, ?_, ?_⟩ <;>
      simp [handleCreateSessionRequest, hpgw, hsf, hv, hmsi, hmei, hapn, hsn, hrat, hfind,
        hov, Session.addTEID, Session.getTEID, NewSession, NewCreateSessionResponse,
        Conn.addSession, Conn.removeSession, Conn.newFTEID, filter_imsi_idem]

/-- A sample request with every required IE present (the sample
missing-MEI request with the device identity added). -/
def sampleReqFull : CreateSessionRequest :=
  { sampleReqMissingMEI with mei := some "3560920407930002" }

/-- Witness for C6: the full sample request against the sample state. -/
theorem claim_C6_timeout_witness :
    (firstMissing sampleReqFull = none
      ∧ sampleReqFull.senderFTEIDC
          = some { ifType := .s11MMEGTPC, teid := 200, ip := "10.0.0.8", inst := 0 }
      ∧ sampleReqFull.imsi = some "001010000000001")
    ∧ ((handleCreateSessionRequest sampleSgw "mme0" sampleReqFull .timeout).ret = some .timeout
      ∧ (handleCreateSessionRequest sampleSgw "mme0" sampleReqFull .timeout).sentToMME
          = [("mme0",
              { teid := 200, seq := 1, cause := some .noResourcesAvailable,
                senderFTEIDC := none, sgwFQCSID := none, bearerContextsCreated := [] })]
      ∧ (handleCreateSessionRequest sampleSgw "mme0" sampleReqFull .timeout).s11Conn.sessions
          = sampleSgw.s11Conn.sessions.filter
              (fun x => decide (x.imsi ≠ "001010000000001"))
      ∧ (handleCreateSessionRequest sampleSgw "mme0" sampleReqFull
          .timeout).sentUpstream.length = 1) :=
  ⟨⟨rfl, rfl, rfl⟩,
    claim_C6_timeout sampleSgw "mme0" sampleReqFull
      { ifType := .s11MMEGTPC, teid := 200, ip := "10.0.0.8", inst := 0 }
      "001010000000001" rfl rfl rfl⟩

/-- Claim C10: on a Create Session flow that fails after the upstream-side
session has been stored (the inner wait timing out or yielding a message of
the wrong type), the handler removes only the requester-side session: a
session for the subscriber remains registered in the upstream (S5) store
while the S11 store holds none, and an error is returned. -/
theorem claim_C10_s5_session_persists (sgw : SgwState) (mmeAddr : String)
    (msg : CreateSessionRequest) (wait : WaitResult) (v : String)
    (hall : firstMissing msg = none)
    (hv : msg.imsi = some v)
    (hw : wait = .timeout ∨ wait = .wrongType) :
    (∃ s, s ∈ (handleCreateSessionRequest sgw mmeAddr msg wait).s5cConn.sessions ∧ s.imsi = v)
    ∧ (∀ s ∈ (handleCreateSessionRequest sgw mmeAddr msg wait).s11Conn.sessions, s.imsi ≠ v)
    ∧ ((handleCreateSessionRequest sgw mmeAddr msg wait).ret).isSome = true := by
  cases hpgw : msg.pgwS5S8FTEIDC with
  | none => simp [firstMissing, hpgw] at hall
  | some pgw =>
  cases hsnd : msg.senderFTEIDC with
  | none => simp [firstMissing, hpgw, hsnd] at hall
  | some snd =>
  cases hmsi : msg.msisdn with
  | none => simp [firstMissing, hpgw, hsnd, hv, hmsi] at hall
  | some md =>
  cases hmei : msg.mei with
  | none => simp [firstMissing, hpgw, hsnd, hv, hmsi, hmei] at hall
  | some me =>
  cases hapn : msg.apn with
  | none => simp [firstMissing, hpgw, hsnd, hv, hmsi, hmei, hapn] at hall
  | some ap =>
  cases hsn : msg.servingNetwork with
  | none => simp [firstMissing, hpgw, hsnd, hv, hmsi, hmei, hapn, hsn] at hall
  | some sn =>
  cases hrat : msg.ratType with
  | none => simp [firstMissing, hpgw, hsnd, hv, hmsi, hmei, hapn, hsn, hrat] at hall
  | some rat =>
  rcases hw with rfl | rfl <;>
    cases hfind : sgw.s11Conn.getSessionByIMSI v <;>
    refine ⟨?_, ?_, ?_⟩ <;>
    simp [handleCreateSessionRequest, hpgw, hsnd, hv, hmsi, hmei, hapn, hsn, hrat, hfind,
      Session.addTEID, Session.getTEID, NewSession, NewCreateSessionResponse,
      Conn.addSession, Conn.removeSession, Conn.newFTEID, List.mem_filter] <;>
    intro s hs h1 h2 <;> exact h1

/-- Witness for C10: the full sample request against the sample state with
the wait timing out. -/
theorem claim_C10_s5_session_persists_witness :
    (firstMissing sampleReqFull = none ∧ sampleReqFull.imsi = some "001010000000001")
    ∧ ((∃ s, s ∈ (handleCreateSessionRequest sampleSgw "mme0" sampleReqFull
          .timeout).s5cConn.sessions ∧ s.imsi = "001010000000001")
      ∧ (∀ s ∈ (handleCreateSessionRequest sampleSgw "mme0" sampleReqFull
          .timeout).s11Conn.sessions, s.imsi ≠ "001010000000001")
      ∧ ((handleCreateSessionRequest sampleSgw "mme0" sampleReqFull
          .timeout).ret).isSome = true) :=
  ⟨⟨rfl, rfl⟩,
    claim_C10_s5_session_persists sampleSgw "mme0" sampleReqFull .timeout
      "001010000000001" rfl rfl (Or.inl rfl)⟩

/-- Claim C7: on a Modify Bearer Request whose session, peer session and
endpoint TEIDs all resolve, the handler responds to the requester with the
accepted cause and the resolved local S1-U user-plane tunnel-endpoint IE,
and sends nothing to the upstream control-plane peer. -/
theorem claim_C7_modify_bearer (sgw : SgwState) (mmeAddr : String)
    (msg : ModifyBearerRequest) (s11s s2 s5cs : Session) (t1 t2 t3 : Nat)
    (h1 : sgw.s11Conn.getSessionByTEID msg.teid = some s11s)
    (h2 : sgw.s5cConn.getSessionByIMSI s11s.imsi = some s5cs)
    (hp : mbProcessed s11s msg = .ok s2)
    (h3 : s2.getTEID .s11MMEGTPC = some t1)
    (h4 : s2.getTEID .s1USGWGTPU = some t2)
    (h5 : s5cs.getTEID .s5S8SGWGTPU = some t3) :
    (handleModifyBearerRequest sgw mmeAddr msg).sentToMME
        = [(mmeAddr,
            { teid := t1, seq := msg.seq, cause := .requestAccepted,
              bearerCause := .requestAccepted, bearerEBI := s2.bearer.ebi,
              bearerFTEID := { ifType := .s1USGWGTPU, teid := t2, ip := sgw.s1uIP, inst := 0 } })]
    ∧ (handleModifyBearerRequest sgw mmeAddr msg).sentUpstream = []
    ∧ (handleModifyBearerRequest sgw mmeAddr msg).ret = none := by
  refine ⟨?_, ?_, ?_⟩ <;> simp [handleModifyBearerRequest, h1, h2, hp, h3, h4, h5]

/-- The S11 session of the Modify Bearer witness. -/
def wSess11 : Session :=
  { NewSession "mme0" with
    imsi := "001", teids := [(.s11MMEGTPC, 10), (.s1USGWGTPU, 11)] }

/-- The S5 session of the Modify Bearer witness. -/
def wSess5 : Session :=
  { NewSession "pgw0" with imsi := "001", teids := [(.s5S8SGWGTPU, 20)] }

/-- The S-GW state of the Modify Bearer witness. -/
def wSgwMB : SgwState :=
  { s11Conn := { sessions := [wSess11], teidSeq := 0 },
    s5cConn := { sessions := [wSess5], teidSeq := 0 },
    s5cIP := "ip5c", s11IP := "ip11", s1uIP := "ip1u" }

/-- The Modify Bearer request of the witness (no bearer-context children). -/
def wMBReq : ModifyBearerRequest := { teid := 10, seq := 7, bearerContextsToBeModified := none }

/-- Witness for C7: a fully resolvable Modify Bearer request. -/
theorem claim_C7_modify_bearer_witness :
    (wSgwMB.s11Conn.getSessionByTEID wMBReq.teid = some wSess11
      ∧ wSgwMB.s5cConn.getSessionByIMSI wSess11.imsi = some wSess5
      ∧ mbProcessed wSess11 wMBReq = .ok wSess11
      ∧ wSess11.getTEID .s11MMEGTPC = some 10
      ∧ wSess11.getTEID .s1USGWGTPU = some 11
      ∧ wSess5.getTEID .s5S8SGWGTPU = some 20)
    ∧ ((handleModifyBearerRequest wSgwMB "mme0" wMBReq).sentToMME
        = [("mme0",
            { teid := 10, seq := wMBReq.seq, cause := .requestAccepted,
              bearerCause := .requestAccepted, bearerEBI := wSess11.bearer.ebi,
              bearerFTEID := { ifType := .s1USGWGTPU, teid := 11, ip := wSgwMB.s1uIP, inst := 0 } })]
      ∧ (handleModifyBearerRequest wSgwMB "mme0" wMBReq).sentUpstream = []
      ∧ (handleModifyBearerRequest wSgwMB "mme0" wMBReq).ret = none) :=
  ⟨⟨rfl, rfl, rfl, rfl, rfl, rfl⟩,
    claim_C7_modify_bearer wSgwMB "mme0" wMBReq wSess11 wSess11 wSess5 10 11 20
      rfl rfl rfl rfl rfl rfl⟩

end V2

end GoGTP
